import Mathlib

/-!
Verification of the OSSM configuration tool's J1939 protocol engine
(`src/protocol/j1939.c`, constants from `src/types.h`, frame layout from
`src/can/socketcan.h`).

Modelling conventions:
* C unsigned integers are modelled as `Nat`.  All shifts/masks in the C code
  operate on values that provably fit in `uint32_t` (29-bit identifiers,
  18-bit PGNs, bytes), so no `% 2^32` reduction is needed anywhere.
* C `float` values are modelled as exact rationals (`ℚ`); every constant the
  code uses (0.03125, 0.125, 0.5, 0.4, 2, 4, -999, offsets 40 and 273) is a
  small rational, and the claims under scrutiny only involve exactly
  representable results or the sentinel.
* The SocketCAN transport is modelled by an oracle `World`: a stream of
  results for successive `socketcan_send` calls, a stream of results for
  successive `socketcan_receive` calls, call counters, and a log of the
  frames handed to `socketcan_send`.
* `clock_gettime`-based timestamps enter `j1939_parse_message` as an explicit
  `now` parameter; the sleeps of `j1939_check_response` are accounted by an
  iteration counter (each loop iteration ends with a 5 ms sleep, preceded by
  one fixed 50 ms sleep).
-/

/-! ### Constants from `src/types.h` -/

def OSSM_SOURCE_ADDRESS : Nat := 0x95

def PGN_OSSM_COMMAND : Nat := 0xFF00

def PGN_OSSM_RESPONSE : Nat := 0xFF01

def PGN_AMBIENT_CONDITIONS : Nat := 0xFEF5

def PGN_INLET_EXHAUST : Nat := 0xFEF6

def PGN_ENGINE_TEMP : Nat := 0xFEEE

def PGN_ENGINE_FLUID_PRESS : Nat := 0xFEEF

def PGN_ENGINE_TEMP_2 : Nat := 0xFE69

def PGN_ENGINE_TEMP_3 : Nat := 0xFE95

def PGN_TURBO_PRESS : Nat := 0xFE96

def CMD_ENABLE_SPN : Nat := 0x01

def CMD_SET_TC_TYPE : Nat := 0x04

def CMD_QUERY : Nat := 0x05

def CMD_SAVE : Nat := 0x06

def CMD_RESET : Nat := 0x07

def CMD_NTC_PRESET : Nat := 0x08

def CMD_PRESSURE_PRESET : Nat := 0x09

/-! ### Identifier codec (`j1939.c`, lines 10-33) -/

/-- `j1939_get_pgn` from `j1939.c`: PDU Format is bits 16-23; PDU1 format
(PF < 240) yields `PF * 256`, PDU2 format yields `PF * 256 + PS`. -/
def j1939_get_pgn (can_id : Nat) : Nat :=
  let pf := (can_id >>> 16) &&& 0xFF
  if pf < 240 then
    pf <<< 8
  else
    let ps := (can_id >>> 8) &&& 0xFF
    (pf <<< 8) ||| ps

/-- `j1939_get_source` from `j1939.c`: the low byte of the identifier.
The C return type is `uint8_t`, realised here by the 0xFF mask of the cast. -/
def j1939_get_source (can_id : Nat) : Nat :=
  can_id &&& 0xFF

/-- `j1939_build_id` from `j1939.c`: priority in bits 26-28, PGN in bits
8-25, source in bits 0-7.  The C `source` parameter has type `uint8_t`;
theorems about this function carry `source < 256` where it matters. -/
def j1939_build_id (pgn : Nat) (priority : Nat) (source : Nat) : Nat :=
  ((priority &&& 0x07) <<< 26) ||| ((pgn &&& 0x3FFFF) <<< 8) ||| source

/-! ### CAN frame (`socketcan.h`) and sensor snapshot (`types.h`) -/

/-- `TCanFrame` from `socketcan.h`: 29-bit identifier, payload length,
8-byte payload (kept as a length-8 list of byte values), extended flag. -/
structure TCanFrame where
  id : Nat
  len : Nat
  data : List Nat
  extended : Bool
deriving DecidableEq, Repr

/-- `TSensorData` from `types.h`: named physical readings plus the
"last updated" timestamp.  C `float` fields are modelled as `ℚ`. -/
structure TSensorData where
  oilTemperatureC : ℚ
  coolantTemperatureC : ℚ
  fuelTemperatureC : ℚ
  boostTemperatureC : ℚ
  cacInletTemperatureC : ℚ
  transferPipeTemperatureC : ℚ
  airInletTemperatureC : ℚ
  engineBayTemperatureC : ℚ
  ambientTemperatureC : ℚ
  egtTemperatureC : ℚ
  oilPressurekPa : ℚ
  coolantPressurekPa : ℚ
  fuelPressurekPa : ℚ
  boostPressurekPa : ℚ
  airInletPressurekPa : ℚ
  cacInletPressurekPa : ℚ
  transferPipePressurekPa : ℚ
  absoluteBarometricPressurekPa : ℚ
  humidity : ℚ
  lastUpdateMs : Nat
deriving DecidableEq, Repr

/-! ### Scalar decoders (`j1939.c`, lines 36-71) -/

/-- `decode_temp_byte`: 1 deg C/bit with +40 offset; 0xFF means unavailable. -/
def decode_temp_byte (byte : Nat) : ℚ :=
  if byte = 0xFF then -999 else (byte : ℚ) - 40

/-- `decode_temp_16bit_le`: 16-bit little-endian, 0.03125 deg C/bit with
-273 offset; 0xFF/0xFF means unavailable. -/
def decode_temp_16bit_le (low high : Nat) : ℚ :=
  if high = 0xFF ∧ low = 0xFF then -999
  else ((((high <<< 8) ||| low : Nat)) : ℚ) * (1 / 32) - 273

/-- `decode_pressure_2kpa`: 2 kPa/bit; 0xFF means unavailable. -/
def decode_pressure_2kpa (byte : Nat) : ℚ :=
  if byte = 0xFF then -999 else (byte : ℚ) * 2

/-- `decode_pressure_4kpa`: 4 kPa/bit; 0xFF means unavailable. -/
def decode_pressure_4kpa (byte : Nat) : ℚ :=
  if byte = 0xFF then -999 else (byte : ℚ) * 4

/-- `decode_baro_pressure`: 0.5 kPa/bit; 0xFF means unavailable. -/
def decode_baro_pressure (byte : Nat) : ℚ :=
  if byte = 0xFF then -999 else (byte : ℚ) * (1 / 2)

/-- `decode_humidity`: 0.4 percent/bit; 0xFF means unavailable. -/
def decode_humidity (byte : Nat) : ℚ :=
  if byte = 0xFF then -999 else (byte : ℚ) * (2 / 5)

/-! ### Telemetry decoder (`j1939_parse_message`, `j1939.c` lines 79-188)

The C function mutates `*data` and reads the monotonic clock on a successful
update; here the clock value is the explicit `now` argument and the function
returns the `updated` flag together with the new snapshot. -/

def j1939_parse_message (frame : TCanFrame) (data : TSensorData) (now : Nat) :
    Bool × TSensorData :=
  if frame.extended = false then (false, data)
  else if j1939_get_source frame.id ≠ OSSM_SOURCE_ADDRESS then (false, data)
  else
    let pgn := j1939_get_pgn frame.id
    let d := fun i => frame.data.getD i 0
    let step : Bool × TSensorData :=
      if pgn = PGN_AMBIENT_CONDITIONS then
        (true, { data with
          absoluteBarometricPressurekPa := decode_baro_pressure (d 0),
          ambientTemperatureC := decode_temp_16bit_le (d 3) (d 4),
          airInletTemperatureC := decode_temp_byte (d 5) })
      else if pgn = PGN_INLET_EXHAUST then
        (true, { data with
          boostPressurekPa := decode_pressure_2kpa (d 1),
          boostTemperatureC := decode_temp_byte (d 2),
          airInletPressurekPa := decode_pressure_2kpa (d 3),
          egtTemperatureC := decode_temp_16bit_le (d 5) (d 6) })
      else if pgn = PGN_ENGINE_TEMP then
        (true, { data with
          coolantTemperatureC := decode_temp_byte (d 0),
          fuelTemperatureC := decode_temp_byte (d 1),
          oilTemperatureC := decode_temp_16bit_le (d 2) (d 3) })
      else if pgn = PGN_ENGINE_FLUID_PRESS then
        (true, { data with
          fuelPressurekPa := decode_pressure_4kpa (d 0),
          oilPressurekPa := decode_pressure_4kpa (d 3),
          coolantPressurekPa := decode_pressure_2kpa (d 6) })
      else if pgn = PGN_ENGINE_TEMP_2 then
        -- Recognised but intentionally decodes no fields (hi-res variant).
        (true, data)
      else if pgn = PGN_ENGINE_TEMP_3 then
        (true, { data with
          cacInletTemperatureC := decode_temp_byte (d 0),
          transferPipeTemperatureC := decode_temp_byte (d 1) })
      else if pgn = PGN_TURBO_PRESS then
        -- Each 16-bit little-endian channel is written only when its byte
        -- pair is not the 0xFF/0xFF unavailable marker.
        let data1 :=
          if d 0 ≠ 0xFF ∨ d 1 ≠ 0xFF then
            { data with cacInletPressurekPa :=
                ((((d 1 <<< 8) ||| d 0 : Nat)) : ℚ) * (1 / 8) }
          else data
        let data2 :=
          if d 2 ≠ 0xFF ∨ d 3 ≠ 0xFF then
            { data1 with transferPipePressurekPa :=
                ((((d 3 <<< 8) ||| d 2 : Nat)) : ℚ) * (1 / 8) }
          else data1
        (true, data2)
      else if pgn = 65164 then
        (true, { data with
          engineBayTemperatureC := decode_temp_byte (d 0),
          humidity := decode_humidity (d 6) })
      else
        (false, data)
    if step.1 then (true, { step.2 with lastUpdateMs := now }) else step


/-! ### Transport oracle

`socketcan_send` returns 0 on success and -1 on failure; `socketcan_receive`
returns 1 with a frame, 0 with no data, or -1 on error (`socketcan.h`).
A `World` fixes the outcome of every future send and receive call and logs
the frames handed to `socketcan_send`. -/

/-- Outcome of one `socketcan_receive` call. -/
inductive RecvResult where
  | frame (f : TCanFrame)
  | noData
  | recvFail
deriving DecidableEq, Repr

/-- Transport oracle state threaded through the command/response engine. -/
structure World where
  sendRes : Nat → Int
  recvRes : Nat → RecvResult
  sends : Nat
  recvs : Nat
  sentLog : List TCanFrame

/-! ### Command/response engine (`j1939.c`, lines 190-242) -/

/-- The frame built by `j1939_send_command`: identifier
`j1939_build_id PGN_OSSM_COMMAND 6 0`, extended, length 8, payload memset
to 0xFF, command byte at offset 0, then up to 7 parameter bytes copied to
offsets 1..7 (`param_len` is clamped to 7). -/
def j1939_send_command_frame (cmd : Nat) (params : List Nat) : TCanFrame :=
  let plen := min params.length 7
  { id := j1939_build_id PGN_OSSM_COMMAND 6 0x00
    len := 8
    data := [cmd] ++ params.take plen ++ List.replicate (7 - plen) 0xFF
    extended := true }

/-- `j1939_send_command`: build the command frame, hand it to
`socketcan_send`, and return that call's result. -/
def j1939_send_command (w : World) (cmd : Nat) (params : List Nat) : Int × World :=
  let frame := j1939_send_command_frame cmd params
  (w.sendRes w.sends,
   { w with sends := w.sends + 1, sentLog := w.sentLog ++ [frame] })

/-- Result of `j1939_check_response`: the returned code (-1 for timeout,
otherwise the response's error byte), the 6 bytes copied out of the matching
frame (payload offsets 2..7, reported with `*response_len = 6`), and the
number of completed 5 ms poll iterations before returning. -/
structure CheckResult where
  code : Int
  resp : Option (List Nat)
  sleeps : Nat
deriving DecidableEq, Repr

/-- The acceptance test of `j1939_check_response` on a received frame:
PGN equals `PGN_OSSM_RESPONSE`, source equals `OSSM_SOURCE_ADDRESS`, and the
first payload byte equals the expected command. -/
def crMatches (expected_cmd : Nat) (f : TCanFrame) : Bool :=
  (j1939_get_pgn f.id == PGN_OSSM_RESPONSE) &&
  (j1939_get_source f.id == OSSM_SOURCE_ADDRESS) &&
  (f.data.getD 0 0 == expected_cmd)

/-- Whether one `socketcan_receive` outcome is accepted by
`j1939_check_response` for `expected_cmd` (a non-frame result never is). -/
def acceptsRecv (expected_cmd : Nat) : RecvResult → Bool
  | RecvResult.frame f => crMatches expected_cmd f
  | RecvResult.noData => false
  | RecvResult.recvFail => false

/-- The polling loop of `j1939_check_response`.  The C loop runs while
`elapsed < 1000` with `elapsed` advancing by 5 per iteration, i.e. exactly
200 iterations; `fuel` counts the iterations still allowed and `sleeps` the
iterations already completed (each completed iteration performed one 5 ms
sleep).  A matching frame returns before that iteration's sleep. -/
def crLoop (expected_cmd : Nat) : Nat → Nat → World → CheckResult × World
  | 0, sleeps, w => (⟨-1, none, sleeps⟩, w)
  | fuel + 1, sleeps, w =>
    match w.recvRes w.recvs with
    | RecvResult.frame f =>
      if crMatches expected_cmd f then
        (⟨(f.data.getD 1 0 : Int),
          some [f.data.getD 2 0, f.data.getD 3 0, f.data.getD 4 0,
                f.data.getD 5 0, f.data.getD 6 0, f.data.getD 7 0],
          sleeps⟩,
         { w with recvs := w.recvs + 1 })
      else crLoop expected_cmd fuel (sleeps + 1) { w with recvs := w.recvs + 1 }
    | _ => crLoop expected_cmd fuel (sleeps + 1) { w with recvs := w.recvs + 1 }

/-- `j1939_check_response`: 50 ms grace sleep, then up to 200 polls. -/
def j1939_check_response (expected_cmd : Nat) (w : World) : CheckResult × World :=
  crLoop expected_cmd 200 0 w

/-- Wall-clock milliseconds spent inside `j1939_check_response`: the fixed
`usleep(50000)` plus one `usleep(5000)` per completed loop iteration. -/
def check_response_wall_ms (r : CheckResult) : Nat :=
  50 + 5 * r.sleeps

/-! ### High-level operations (`j1939.c`, lines 244-386) -/

/-- `j1939_enable_spn`: parameter block [spn_high, spn_low, enable, input],
one `j1939_send_command`, then one `j1939_check_response` (transport failure
surfaces as -1 without waiting for a response). -/
def j1939_enable_spn (w : World) (spn : Nat) (enable : Bool) (input : Nat) :
    Int × World :=
  let params := [(spn >>> 8) &&& 0xFF, spn &&& 0xFF, if enable then 1 else 0, input]
  let sc := j1939_send_command w CMD_ENABLE_SPN params
  if sc.1 < 0 then (-1, sc.2)
  else
    let cr := j1939_check_response CMD_ENABLE_SPN sc.2
    (cr.1.code, cr.2)

/-- `TConfigState` from `types.h`. -/
structure TConfigState where
  tempCount : Nat
  pressureCount : Nat
  egtEnabled : Bool
  bme280Enabled : Bool
  sourceAddress : Nat
  thermocoupleType : Nat
deriving DecidableEq, Repr

/-- `j1939_query_config`: query type 0, one round trip; the four state
fields are written only when the response code is 0. -/
def j1939_query_config (w : World) (state : TConfigState) :
    Int × TConfigState × World :=
  let sc := j1939_send_command w CMD_QUERY [0]
  if sc.1 < 0 then (-1, state, sc.2)
  else
    let cr := j1939_check_response CMD_QUERY sc.2
    let response := cr.1.resp.getD []
    let state' :=
      if cr.1.code = 0 then
        { state with
          tempCount := response.getD 0 0
          pressureCount := response.getD 1 0
          egtEnabled := response.getD 2 0 ≠ 0
          bme280Enabled := response.getD 3 0 ≠ 0 }
      else state
    (cr.1.code, state', cr.2)

/-- `TSpnAssignments` from `j1939.h`: 8 temperature slots and 7 pressure
slots, fixed-size arrays modelled as lists of those lengths. -/
structure TSpnAssignments where
  tempSpns : List Nat
  presSpns : List Nat
deriving DecidableEq, Repr

/-- One slot write of `j1939_query_spn_assignments`: slot `idx` receives
`spn` when `idx` is inside the table and `spn` is not the 0xFFFF "unused"
marker; otherwise the table is untouched. -/
def spnSlotUpdate (slots : List Nat) (limit idx spn : Nat) : List Nat :=
  if idx < limit ∧ spn ≠ 0xFFFF then slots.set idx spn else slots

/-- The SPN packed at position `i` of a 6-byte response block:
high byte then low byte. -/
def spnFromResp (response : List Nat) (i : Nat) : Nat :=
  ((response.getD (i * 2) 0) <<< 8) ||| response.getD (i * 2 + 1) 0

/-- One sub-query round of `j1939_query_spn_assignments`: send
`CMD_QUERY [qtype, subQuery]`, await the response, and on success parse the
3 packed SPNs into slots `subQuery*3 .. subQuery*3+2` (bounded by `limit`).
Returns `some code` to abort the whole query with `code`, or `none` to
continue with the updated table. -/
def spnRound (qtype limit subQuery : Nat) (w : World) (slots : List Nat) :
    Option Int × World × List Nat :=
  let sc := j1939_send_command w CMD_QUERY [qtype, subQuery]
  if sc.1 < 0 then (some (-1), sc.2, slots)
  else
    let cr := j1939_check_response CMD_QUERY sc.2
    if cr.1.code ≠ 0 then (some cr.1.code, cr.2, slots)
    else
      let response := cr.1.resp.getD []
      let s0 := spnSlotUpdate slots limit (subQuery * 3) (spnFromResp response 0)
      let s1 := spnSlotUpdate s0 limit (subQuery * 3 + 1) (spnFromResp response 1)
      let s2 := spnSlotUpdate s1 limit (subQuery * 3 + 2) (spnFromResp response 2)
      (none, cr.2, s2)

/-- One 3-round phase of `j1939_query_spn_assignments` (the C `for` loop
over `subQuery = 0,1,2` for a fixed query type), aborting on the first
failing round. -/
def spnPhase (qtype limit : Nat) (w : World) (slots : List Nat) :
    Option Int × World × List Nat :=
  match spnRound qtype limit 0 w slots with
  | (some e, w1, s1) => (some e, w1, s1)
  | (none, w1, s1) =>
    match spnRound qtype limit 1 w1 s1 with
    | (some e, w2, s2) => (some e, w2, s2)
    | (none, w2, s2) => spnRound qtype limit 2 w2 s2

/-- `j1939_query_spn_assignments`: table memset to zero, then 3 temperature
sub-queries (query type 1, table limit 8) followed by 3 pressure sub-queries
(query type 2, table limit 7); the first failure aborts and propagates. -/
def j1939_query_spn_assignments (w : World) : Int × TSpnAssignments × World :=
  let temp0 := List.replicate 8 0
  let pres0 := List.replicate 7 0
  match spnPhase 1 8 w temp0 with
  | (some e, w1, t) => (e, ⟨t, pres0⟩, w1)
  | (none, w1, t) =>
    match spnPhase 2 7 w1 pres0 with
    | (some e, w2, p) => (e, ⟨t, p⟩, w2)
    | (none, w2, p) => (0, ⟨t, p⟩, w2)

/-! ### Statement-level definitions -/

/-- The seven named telemetry PGNs of `types.h` ("Data PGNs we receive"). -/
def KNOWN_TELEMETRY_PGNS : List Nat :=
  [PGN_AMBIENT_CONDITIONS, PGN_INLET_EXHAUST, PGN_ENGINE_TEMP,
   PGN_ENGINE_FLUID_PRESS, PGN_ENGINE_TEMP_2, PGN_ENGINE_TEMP_3,
   PGN_TURBO_PRESS]

/-- All PGNs actually dispatched by the `switch` in `j1939_parse_message`:
the seven named telemetry PGNs plus the bare literal case 65164. -/
def HANDLED_TELEMETRY_PGNS : List Nat :=
  KNOWN_TELEMETRY_PGNS ++ [65164]

/-- The startup snapshot built in `main.c` (lines 86-110): every reading at
the -999 sentinel, timestamp 0. -/
def initialSensorData : TSensorData :=
  { oilTemperatureC := -999
    coolantTemperatureC := -999
    fuelTemperatureC := -999
    boostTemperatureC := -999
    cacInletTemperatureC := -999
    transferPipeTemperatureC := -999
    airInletTemperatureC := -999
    engineBayTemperatureC := -999
    ambientTemperatureC := -999
    egtTemperatureC := -999
    oilPressurekPa := -999
    coolantPressurekPa := -999
    fuelPressurekPa := -999
    boostPressurekPa := -999
    airInletPressurekPa := -999
    cacInletPressurekPa := -999
    transferPipePressurekPa := -999
    absoluteBarometricPressurekPa := -999
    humidity := -999
    lastUpdateMs := 0 }

/-- "Every snapshot field mapped to this PGN equals the -999 sentinel",
following the field map of the handlers in `j1939_parse_message`
(PGN 65129 maps no fields). -/
def pgnMappedFieldsSentinel (pgn : Nat) (s : TSensorData) : Prop :=
  (pgn = PGN_AMBIENT_CONDITIONS →
    s.absoluteBarometricPressurekPa = -999 ∧ s.ambientTemperatureC = -999 ∧
    s.airInletTemperatureC = -999) ∧
  (pgn = PGN_INLET_EXHAUST →
    s.boostPressurekPa = -999 ∧ s.boostTemperatureC = -999 ∧
    s.airInletPressurekPa = -999 ∧ s.egtTemperatureC = -999) ∧
  (pgn = PGN_ENGINE_TEMP →
    s.coolantTemperatureC = -999 ∧ s.fuelTemperatureC = -999 ∧
    s.oilTemperatureC = -999) ∧
  (pgn = PGN_ENGINE_FLUID_PRESS →
    s.fuelPressurekPa = -999 ∧ s.oilPressurekPa = -999 ∧
    s.coolantPressurekPa = -999) ∧
  (pgn = PGN_ENGINE_TEMP_3 →
    s.cacInletTemperatureC = -999 ∧ s.transferPipeTemperatureC = -999) ∧
  (pgn = PGN_TURBO_PRESS →
    s.cacInletPressurekPa = -999 ∧ s.transferPipePressurekPa = -999)


/-- Concrete counterexample frame for the C8 claim: PGN 65164 (0xFE8C), the
bare-literal `switch` case of `j1939_parse_message` that is none of the seven
named telemetry PGNs. -/
def c8Frame : TCanFrame :=
  ⟨0x18FE8C95, 8, [50, 0xFF, 0xFF, 0xFF, 0xFF, 0xFF, 0xFF, 0xFF], true⟩

/-- Concrete counterexample frame for the C2 claim: PGN 0xFE96 with an
all-0xFF payload. -/
def c2Frame : TCanFrame :=
  ⟨0x18FE9695, 8, [0xFF, 0xFF, 0xFF, 0xFF, 0xFF, 0xFF, 0xFF, 0xFF], true⟩

/-- Concrete snapshot for the C2 counterexample: one 0.125 kPa/bit channel
holds an ordinary reading instead of the sentinel. -/
def c2Snapshot : TSensorData :=
  { initialSensorData with cacInletPressurekPa := 0 }

/-- Concrete witness frame for C9: PGN 0xFE96, first byte pair 0xFF/0xFF,
second byte pair 0x10/0x00. -/
def c9Frame : TCanFrame :=
  ⟨0x18FE9695, 8, [0xFF, 0xFF, 0x10, 0x00, 0xFF, 0xFF, 0xFF, 0xFF], true⟩

/-- Concrete witness frame for C8's amended theorem: an unhandled PGN
(0xFEFF) from the module's source address. -/
def c8WitnessFrame : TCanFrame :=
  ⟨0x18FEFF95, 8, [1, 2, 3, 4, 5, 6, 7, 8], true⟩


/-- Concrete witness frame for the amended C2 theorem: ambient conditions
PGN 0xFEF5 with an all-0xFF payload. -/
def c2AmbientFrame : TCanFrame :=
  ⟨0x18FEF595, 8, [0xFF, 0xFF, 0xFF, 0xFF, 0xFF, 0xFF, 0xFF, 0xFF], true⟩

/-- Matching response frame for the C4 witness: PGN 0xFF01, source 0x95,
command byte 0x04, error byte 0, result block 9,8,7,6,5,4. -/
def c4RespFrame : TCanFrame :=
  ⟨0x18FF0195, 8, [0x04, 0x00, 9, 8, 7, 6, 5, 4], true⟩

/-- Discarded frame for the C4 witness: right PGN and source but a command
byte (0x07) different from the expected one. -/
def c4JunkFrame : TCanFrame :=
  ⟨0x18FF0195, 8, [0x07, 0, 0, 0, 0, 0, 0, 0], true⟩

/-- Transport for the C4 witness: first receive yields the non-matching
frame, the second the matching one. -/
def c4World : World :=
  { sendRes := fun _ => 0
    recvRes := fun i => if i = 0 then RecvResult.frame c4JunkFrame
                        else RecvResult.frame c4RespFrame
    sends := 0
    recvs := 0
    sentLog := [] }

/-- Transport for the C6 witness: no data on every receive. -/
def c6World : World :=
  { sendRes := fun _ => 0
    recvRes := fun _ => RecvResult.noData
    sends := 0
    recvs := 0
    sentLog := [] }


/-- Response frame for the C5 witness: command CMD_QUERY, error 0, one SPN
(0x00AF = 175) in the first slot, 0xFFFF (unused) in the other two. -/
def c5RespFrame : TCanFrame :=
  ⟨0x18FF0195, 8, [0x05, 0x00, 0x00, 0xAF, 0xFF, 0xFF, 0xFF, 0xFF], true⟩

/-- Transport for the C5 witness: the first temperature sub-query succeeds
(send 0 ok, matching response available), the second send fails at the
socket layer. -/
def c5World : World :=
  { sendRes := fun i => if i = 1 then -1 else 0
    recvRes := fun _ => RecvResult.frame c5RespFrame
    sends := 0
    recvs := 0
    sentLog := [] }

/-- The world reached by the C5 witness when the second temperature
sub-query's send fails: two sends logged, one response consumed. -/
def c5WorldAfter : World :=
  { c5World with
    sends := 2
    recvs := 1
    sentLog := [j1939_send_command_frame CMD_QUERY [1, 0],
                j1939_send_command_frame CMD_QUERY [1, 1]] }

/-- Response frame for the C10 witness: command CMD_QUERY with protocol
error code 2. -/
def c10RespFrame : TCanFrame :=
  ⟨0x18FF0195, 8, [0x05, 0x02, 0, 0, 0, 0, 0, 0], true⟩

/-- Transport for the C10 witness: send succeeds, the module answers with a
nonzero protocol error. -/
def c10World : World :=
  { sendRes := fun _ => 0
    recvRes := fun _ => RecvResult.frame c10RespFrame
    sends := 0
    recvs := 0
    sentLog := [] }

/-- A populated configuration state for the C10 witness. -/
def c10State : TConfigState :=
  ⟨3, 4, true, false, 0x95, 1⟩


/-! ### Bitwise-to-arithmetic bridge lemmas -/

theorem and_255_eq_mod (x : Nat) : x &&& 0xFF = x % 256 := by
  have h := Nat.and_pow_two_sub_one_eq_mod x 8
  norm_num at h
  exact h

theorem and_7_eq_mod (x : Nat) : x &&& 0x07 = x % 8 := by
  have h := Nat.and_pow_two_sub_one_eq_mod x 3
  norm_num at h
  exact h

theorem and_262143_eq_mod (x : Nat) : x &&& 0x3FFFF = x % 262144 := by
  have h := Nat.and_pow_two_sub_one_eq_mod x 18
  norm_num at h
  exact h

/-- Disjoint-range `|||` is addition: if `b` occupies only the low `n` bits,
then OR-ing it below a multiple of `2 ^ n` is the same as adding it. -/
theorem two_pow_mul_or_eq_add {n : Nat} (a : Nat) {b : Nat} (hb : b < 2 ^ n) :
    (2 ^ n * a) ||| b = 2 ^ n * a + b := by
  apply Nat.eq_of_testBit_eq
  intro j
  rw [Nat.testBit_or, Nat.testBit_mul_pow_two_add a hb j, Nat.testBit_mul_pow_two]
  by_cases h : j < n
  · have hge : ¬ (j ≥ n) := by omega
    simp [h, hge]
  · have hbj : b.testBit j = false := by
      apply Nat.testBit_lt_two_pow
      calc b < 2 ^ n := hb
        _ ≤ 2 ^ j := Nat.pow_le_pow_right (by norm_num) (by omega)
    have hge : j ≥ n := by omega
    simp [h, hge, hbj]

/-- Arithmetic characterisation of `j1939_get_pgn`. -/
theorem j1939_get_pgn_arith (id : Nat) :
    j1939_get_pgn id =
      if id / 65536 % 256 < 240 then id / 65536 % 256 * 256
      else id / 65536 % 256 * 256 + id / 256 % 256 := by
  unfold j1939_get_pgn
  simp only [Nat.shiftRight_eq_div_pow, and_255_eq_mod, Nat.shiftLeft_eq]
  norm_num
  by_cases h : id / 65536 % 256 < 240
  · simp [h]
  · have hps : id / 256 % 256 < 256 := Nat.mod_lt _ (by norm_num)
    have hor := two_pow_mul_or_eq_add (n := 8) (id / 65536 % 256) hps
    norm_num at hor
    rw [Nat.mul_comm] at hor
    simp [h, hor]

/-- Arithmetic characterisation of `j1939_get_source`. -/
theorem j1939_get_source_arith (id : Nat) : j1939_get_source id = id % 256 := by
  unfold j1939_get_source
  exact and_255_eq_mod id

/-- Arithmetic characterisation of `j1939_build_id` for a byte-sized source. -/
theorem j1939_build_id_arith (pgn priority source : Nat) (hs : source < 256) :
    j1939_build_id pgn priority source =
      priority % 8 * 67108864 + pgn % 262144 * 256 + source := by
  unfold j1939_build_id
  rw [and_7_eq_mod, and_262143_eq_mod, Nat.shiftLeft_eq, Nat.shiftLeft_eq]
  norm_num
  have hpgn : pgn % 262144 < 262144 := Nat.mod_lt _ (by norm_num)
  have h1 : pgn % 262144 * 256 < 2 ^ 26 := by
    have := Nat.mul_lt_mul_of_lt_of_le hpgn (Nat.le_refl 256) (by norm_num)
    norm_num at this ⊢
    omega
  have hor1 := two_pow_mul_or_eq_add (n := 26) (priority % 8) h1
  norm_num at hor1
  rw [Nat.mul_comm 67108864 (priority % 8)] at hor1
  rw [hor1]
  have h2 : priority % 8 * 67108864 + pgn % 262144 * 256 =
      256 * (262144 * (priority % 8) + pgn % 262144) := by ring
  rw [h2]
  have hor2 := two_pow_mul_or_eq_add (n := 8) (262144 * (priority % 8) + pgn % 262144) hs
  norm_num at hor2
  rw [hor2]

/-- The PGN extracted from any identifier fits in 16 bits. -/
theorem j1939_get_pgn_lt (id : Nat) : j1939_get_pgn id < 65536 := by
  rw [j1939_get_pgn_arith]
  have hpf : id / 65536 % 256 < 256 := Nat.mod_lt _ (by norm_num)
  have hps : id / 256 % 256 < 256 := Nat.mod_lt _ (by norm_num)
  by_cases h : id / 65536 % 256 < 240 <;> simp [h] <;> omega

/-- C1: for every 29-bit identifier and 3-bit priority, rebuilding an
identifier via `j1939_build_id (j1939_get_pgn id &&& 0x3FFFF) priority
(j1939_get_source id)` reproduces the PGN/source portion of `id`: extracting
the PGN and the source from the rebuilt identifier gives the same values as
extracting them from `id`. -/
theorem C1_build_id_roundtrip (id priority : Nat) (hid : id < 2 ^ 29) (hp : priority < 8) :
    j1939_get_pgn (j1939_build_id (j1939_get_pgn id &&& 0x3FFFF) priority (j1939_get_source id)) =
      j1939_get_pgn id ∧
    j1939_get_source (j1939_build_id (j1939_get_pgn id &&& 0x3FFFF) priority (j1939_get_source id)) =
      j1939_get_source id := by
  have hs : j1939_get_source id < 256 := by
    rw [j1939_get_source_arith]
    exact Nat.mod_lt _ (by norm_num)
  rw [and_262143_eq_mod]
  rw [j1939_build_id_arith _ _ _ hs]
  rw [j1939_get_source_arith id]
  rw [j1939_get_pgn_arith id]
  rw [j1939_get_pgn_arith, j1939_get_source_arith]
  split_ifs <;> omega

/-- Closed witness for `C1_build_id_roundtrip` at a concrete identifier and
priority. -/
theorem C1_build_id_roundtrip_witness :
    (0x18FEF595 < 2 ^ 29 ∧ 3 < 8) ∧
    (j1939_get_pgn (j1939_build_id (j1939_get_pgn 0x18FEF595 &&& 0x3FFFF) 3
        (j1939_get_source 0x18FEF595)) = j1939_get_pgn 0x18FEF595 ∧
     j1939_get_source (j1939_build_id (j1939_get_pgn 0x18FEF595 &&& 0x3FFFF) 3
        (j1939_get_source 0x18FEF595)) = j1939_get_source 0x18FEF595) :=
  ⟨⟨by norm_num, by norm_num⟩,
   C1_build_id_roundtrip 0x18FEF595 3 (by norm_num) (by norm_num)⟩

/-- C7: for every 29-bit identifier, if the PDU-Format byte (bits 16-23) is
below 240 then the extracted PGN has low byte zero, and otherwise the low
byte of the extracted PGN equals the PDU-Specific byte (bits 8-15). -/
theorem C7_pgn_low_byte (id : Nat) (hid : id < 2 ^ 29) :
    ((id >>> 16) &&& 0xFF < 240 → j1939_get_pgn id % 256 = 0) ∧
    (240 ≤ (id >>> 16) &&& 0xFF → j1939_get_pgn id % 256 = (id >>> 8) &&& 0xFF) := by
  rw [j1939_get_pgn_arith]
  simp only [Nat.shiftRight_eq_div_pow, and_255_eq_mod]
  norm_num
  constructor
  · intro h
    simp only [if_pos h]
    omega
  · intro h
    rw [if_neg (by omega)]
    omega

/-- Closed witness for `C7_pgn_low_byte`: one PDU1 identifier (PF = 0x12)
and the PDU2 side holds vacuously there. -/
theorem C7_pgn_low_byte_witness :
    (0x18123456 < 2 ^ 29) ∧
    (((0x18123456 >>> 16) &&& 0xFF < 240 → j1939_get_pgn 0x18123456 % 256 = 0) ∧
     (240 ≤ (0x18123456 >>> 16) &&& 0xFF →
       j1939_get_pgn 0x18123456 % 256 = (0x18123456 >>> 8) &&& 0xFF)) :=
  ⟨by norm_num, C7_pgn_low_byte 0x18123456 (by norm_num)⟩

/-- C8 as frozen is refuted here: a frame with PGN 65164 (not one of the
seven known telemetry PGNs), extended and from source 0x95, is nevertheless
decoded: `j1939_parse_message` reports "updated" and refreshes the
timestamp, because the `switch` has an eighth, bare-literal case 65164. -/
theorem C8_counterexample_65164 :
    c8Frame.extended = true ∧
    j1939_get_source c8Frame.id = OSSM_SOURCE_ADDRESS ∧
    j1939_get_pgn c8Frame.id ∉ KNOWN_TELEMETRY_PGNS ∧
    (j1939_parse_message c8Frame initialSensorData 99).1 = true ∧
    (j1939_parse_message c8Frame initialSensorData 99).2.lastUpdateMs = 99 :=
  ⟨rfl, by decide, by decide, by decide, by decide⟩

/-- C8 amended: a frame that is not extended, or whose source is not 0x95,
or whose PGN is dispatched by none of the eight `switch` cases (the seven
named telemetry PGNs plus 65164), produces "no update" and leaves the
snapshot - timestamp included - entirely unchanged. -/
theorem C8_reject_leaves_snapshot (frame : TCanFrame) (s : TSensorData) (now : Nat)
    (h : frame.extended = false ∨ j1939_get_source frame.id ≠ OSSM_SOURCE_ADDRESS ∨
      j1939_get_pgn frame.id ∉ HANDLED_TELEMETRY_PGNS) :
    j1939_parse_message frame s now = (false, s) := by
  unfold j1939_parse_message
  rcases h with h | h | h
  · simp [h]
  · by_cases he : frame.extended = false
    · simp [he]
    · simp [he, h]
  · by_cases he : frame.extended = false
    · simp [he]
    · by_cases hs : j1939_get_source frame.id = OSSM_SOURCE_ADDRESS
      · simp only [HANDLED_TELEMETRY_PGNS, KNOWN_TELEMETRY_PGNS, List.cons_append,
          List.nil_append, List.mem_cons, List.not_mem_nil, or_false, not_or] at h
        obtain ⟨h1, h2, h3, h4, h5, h6, h7, h8⟩ := h
        simp [he, hs, h1, h2, h3, h4, h5, h6, h7, h8]
      · simp [he, hs]

/-- Closed witness for `C8_reject_leaves_snapshot` at an unhandled PGN. -/
theorem C8_reject_leaves_snapshot_witness :
    (c8WitnessFrame.extended = false ∨
     j1939_get_source c8WitnessFrame.id ≠ OSSM_SOURCE_ADDRESS ∨
     j1939_get_pgn c8WitnessFrame.id ∉ HANDLED_TELEMETRY_PGNS) ∧
    j1939_parse_message c8WitnessFrame initialSensorData 42 = (false, initialSensorData) :=
  ⟨Or.inr (Or.inr (by decide)),
   C8_reject_leaves_snapshot c8WitnessFrame initialSensorData 42
     (Or.inr (Or.inr (by decide)))⟩

/-- C2 as frozen is refuted here: for PGN 0xFE96 an all-0xFF payload does
NOT force the mapped fields to the sentinel - the two 0.125 kPa/bit channels
are written only when their byte pair differs from 0xFF/0xFF, so a prior
non-sentinel reading survives.  Concretely, with `cacInletPressurekPa = 0`
beforehand, the field still is 0 (not -999) after decoding. -/
theorem C2_counterexample_turbo_press :
    (c2Frame.extended = true ∧
     j1939_get_source c2Frame.id = OSSM_SOURCE_ADDRESS ∧
     j1939_get_pgn c2Frame.id ∈ KNOWN_TELEMETRY_PGNS ∧
     c2Frame.data = [0xFF, 0xFF, 0xFF, 0xFF, 0xFF, 0xFF, 0xFF, 0xFF] ∧
     (j1939_parse_message c2Frame c2Snapshot 99).1 = true) ∧
    ¬ pgnMappedFieldsSentinel (j1939_get_pgn c2Frame.id)
        ((j1939_parse_message c2Frame c2Snapshot 99).2) := by
  refine ⟨⟨rfl, by decide, by decide, rfl, by decide⟩, ?_⟩
  intro hmf
  have hpgn : j1939_get_pgn c2Frame.id = PGN_TURBO_PRESS := by decide
  have hfield := hmf.2.2.2.2.2 hpgn
  have hzero : (j1939_parse_message c2Frame c2Snapshot 99).2.cacInletPressurekPa = 0 := by
    have h1 : j1939_get_pgn (0x18FE9695 : Nat) = 0xFE96 := by decide
    have h2 : j1939_get_source (0x18FE9695 : Nat) = OSSM_SOURCE_ADDRESS := by decide
    simp only [j1939_parse_message, c2Frame, c2Snapshot, initialSensorData, h1, h2]
    norm_num [PGN_AMBIENT_CONDITIONS, PGN_INLET_EXHAUST, PGN_ENGINE_TEMP,
      PGN_ENGINE_FLUID_PRESS, PGN_ENGINE_TEMP_2, PGN_ENGINE_TEMP_3, PGN_TURBO_PRESS]
  rw [hzero] at hfield
  exact absurd hfield.1 (by norm_num)

/-- C2 amended: for every extended frame from source 0x95 whose PGN is one
of the seven known telemetry PGNs, decoding an all-0xFF payload yields every
mapped field at the -999 sentinel and still reports "updated" with the
timestamp refreshed - provided the two 0.125 kPa/bit channels of PGN 0xFE96
already hold the sentinel (they are left unwritten by the 0xFF/0xFF marker
rather than overwritten, e.g. from the startup snapshot); all other mapped
fields are forced to the sentinel unconditionally. -/
theorem C2_all_ff_yields_sentinel (frame : TCanFrame) (s : TSensorData) (now : Nat)
    (hext : frame.extended = true)
    (hsrc : j1939_get_source frame.id = OSSM_SOURCE_ADDRESS)
    (hpgn : j1939_get_pgn frame.id ∈ KNOWN_TELEMETRY_PGNS)
    (hdata : frame.data = [0xFF, 0xFF, 0xFF, 0xFF, 0xFF, 0xFF, 0xFF, 0xFF])
    (hcac : s.cacInletPressurekPa = -999)
    (htpp : s.transferPipePressurekPa = -999) :
    (j1939_parse_message frame s now).1 = true ∧
    (j1939_parse_message frame s now).2.lastUpdateMs = now ∧
    pgnMappedFieldsSentinel (j1939_get_pgn frame.id)
      ((j1939_parse_message frame s now).2) := by
  simp only [KNOWN_TELEMETRY_PGNS, List.mem_cons, List.not_mem_nil, or_false] at hpgn
  rcases hpgn with h | h | h | h | h | h | h <;>
    simp [j1939_parse_message, pgnMappedFieldsSentinel, hext, hsrc, h, hdata, hcac, htpp,
      decode_temp_byte, decode_temp_16bit_le, decode_pressure_2kpa, decode_pressure_4kpa,
      decode_baro_pressure, decode_humidity, PGN_AMBIENT_CONDITIONS, PGN_INLET_EXHAUST,
      PGN_ENGINE_TEMP, PGN_ENGINE_FLUID_PRESS, PGN_ENGINE_TEMP_2, PGN_ENGINE_TEMP_3,
      PGN_TURBO_PRESS]

/-- Closed witness for `C2_all_ff_yields_sentinel`: an all-0xFF ambient
conditions frame decoded into the startup snapshot. -/
theorem C2_all_ff_yields_sentinel_witness :
    (c2AmbientFrame.extended = true ∧
     j1939_get_source c2AmbientFrame.id = OSSM_SOURCE_ADDRESS ∧
     j1939_get_pgn c2AmbientFrame.id ∈ KNOWN_TELEMETRY_PGNS ∧
     c2AmbientFrame.data = [0xFF, 0xFF, 0xFF, 0xFF, 0xFF, 0xFF, 0xFF, 0xFF] ∧
     initialSensorData.cacInletPressurekPa = -999 ∧
     initialSensorData.transferPipePressurekPa = -999) ∧
    ((j1939_parse_message c2AmbientFrame initialSensorData 7).1 = true ∧
     (j1939_parse_message c2AmbientFrame initialSensorData 7).2.lastUpdateMs = 7 ∧
     pgnMappedFieldsSentinel (j1939_get_pgn c2AmbientFrame.id)
       ((j1939_parse_message c2AmbientFrame initialSensorData 7).2)) :=
  ⟨⟨rfl, by decide, by decide, rfl, rfl, rfl⟩,
   C2_all_ff_yields_sentinel c2AmbientFrame initialSensorData 7 rfl (by decide)
     (by decide) rfl rfl rfl⟩

/-- C9: decoding PGN 0xFE96 (extended, source 0x95) with byte pair 0/1 at
0xFF/0xFF and byte pair 2/3 at 0x10/0x00 leaves the first 0.125 kPa/bit
channel at its sentinel and sets the second to 0x0010 * 0.125 = 2.0; the two
byte pairs are tested independently. -/
theorem C9_turbo_press_channels (frame : TCanFrame) (s : TSensorData) (now : Nat)
    (hext : frame.extended = true)
    (hsrc : j1939_get_source frame.id = OSSM_SOURCE_ADDRESS)
    (hpgn : j1939_get_pgn frame.id = PGN_TURBO_PRESS)
    (h0 : frame.data.getD 0 0 = 0xFF) (h1 : frame.data.getD 1 0 = 0xFF)
    (h2 : frame.data.getD 2 0 = 0x10) (h3 : frame.data.getD 3 0 = 0x00)
    (hcac : s.cacInletPressurekPa = -999) :
    (j1939_parse_message frame s now).1 = true ∧
    (j1939_parse_message frame s now).2.cacInletPressurekPa = -999 ∧
    (j1939_parse_message frame s now).2.transferPipePressurekPa = 2 := by
  simp only [List.getD_eq_getElem?_getD] at h0 h1 h2 h3
  simp [j1939_parse_message, hext, hsrc, hpgn, h0, h1, h2, h3, hcac,
    PGN_AMBIENT_CONDITIONS, PGN_INLET_EXHAUST, PGN_ENGINE_TEMP,
    PGN_ENGINE_FLUID_PRESS, PGN_ENGINE_TEMP_2, PGN_ENGINE_TEMP_3, PGN_TURBO_PRESS]
  norm_num

/-- Closed witness for `C9_turbo_press_channels` on a concrete frame and the
startup snapshot. -/
theorem C9_turbo_press_channels_witness :
    (c9Frame.extended = true ∧
     j1939_get_source c9Frame.id = OSSM_SOURCE_ADDRESS ∧
     j1939_get_pgn c9Frame.id = PGN_TURBO_PRESS ∧
     c9Frame.data.getD 0 0 = 0xFF ∧ c9Frame.data.getD 1 0 = 0xFF ∧
     c9Frame.data.getD 2 0 = 0x10 ∧ c9Frame.data.getD 3 0 = 0x00 ∧
     initialSensorData.cacInletPressurekPa = -999) ∧
    ((j1939_parse_message c9Frame initialSensorData 77).1 = true ∧
     (j1939_parse_message c9Frame initialSensorData 77).2.cacInletPressurekPa = -999 ∧
     (j1939_parse_message c9Frame initialSensorData 77).2.transferPipePressurekPa = 2) :=
  ⟨⟨rfl, by decide, by decide, rfl, rfl, rfl, rfl, rfl⟩,
   C9_turbo_press_channels c9Frame initialSensorData 77 rfl (by decide) (by decide)
     rfl rfl rfl rfl rfl⟩

/-- The polling loop of `j1939_check_response` only receives: it never sends
a frame and never touches the send state. -/
theorem crLoop_world_inv (expected_cmd : Nat) (fuel : Nat) :
    ∀ (sleeps : Nat) (w : World),
      ((crLoop expected_cmd fuel sleeps w).2).sentLog = w.sentLog ∧
      ((crLoop expected_cmd fuel sleeps w).2).sends = w.sends := by
  induction fuel with
  | zero => intro sleeps w; exact ⟨rfl, rfl⟩
  | succ n ih =>
    intro sleeps w
    unfold crLoop
    cases h : w.recvRes w.recvs with
    | frame f =>
      by_cases hm : crMatches expected_cmd f
      · simp [h, hm]
      · simp [h, hm]
        exact ih (sleeps + 1) { w with recvs := w.recvs + 1 }
    | noData =>
      simp [h]
      exact ih (sleeps + 1) { w with recvs := w.recvs + 1 }
    | recvFail =>
      simp [h]
      exact ih (sleeps + 1) { w with recvs := w.recvs + 1 }

/-- C3: `j1939_enable_spn` with spn = 175, enable = true, input = 3 appends
exactly one outbound frame to the send log, namely the command frame with
payload [0x01, 0x00, 0xAF, 0x01, 0x03, 0xFF, 0xFF, 0xFF], identifier
`j1939_build_id 0xFF00 6 0` (which decodes to PGN 0xFF00, priority 6,
source 0), extended, length 8. -/
theorem C3_enable_spn_sends_one_frame (w : World) :
    (j1939_enable_spn w 175 true 3).2.sentLog =
      w.sentLog ++ [j1939_send_command_frame CMD_ENABLE_SPN [0x00, 0xAF, 0x01, 0x03]] ∧
    j1939_send_command_frame CMD_ENABLE_SPN [0x00, 0xAF, 0x01, 0x03] =
      ⟨j1939_build_id 0xFF00 6 0x00, 8,
        [0x01, 0x00, 0xAF, 0x01, 0x03, 0xFF, 0xFF, 0xFF], true⟩ ∧
    j1939_get_pgn (j1939_build_id 0xFF00 6 0x00) = 0xFF00 ∧
    ((j1939_build_id 0xFF00 6 0x00) >>> 26) &&& 0x07 = 6 ∧
    j1939_get_source (j1939_build_id 0xFF00 6 0x00) = 0 := by
  refine ⟨?_, by decide, by decide, by decide, by decide⟩
  have hp : [(175 >>> 8) &&& 0xFF, 175 &&& 0xFF, if true then 1 else 0, 3] =
      [0x00, 0xAF, 0x01, 0x03] := by decide
  unfold j1939_enable_spn
  rw [hp]
  by_cases hs : (j1939_send_command w CMD_ENABLE_SPN [0x00, 0xAF, 0x01, 0x03]).1 < 0
  · simp only [hs, if_pos]
    unfold j1939_send_command
    simp
  · simp only [hs, if_neg, if_false]
    unfold j1939_check_response
    have hinv := crLoop_world_inv CMD_ENABLE_SPN 200 0
      (j1939_send_command w CMD_ENABLE_SPN [0x00, 0xAF, 0x01, 0x03]).2
    rw [hinv.1]
    unfold j1939_send_command
    simp

/-- If none of the next `fuel` receive results is accepted, the polling loop
exhausts its fuel, sleeps once per iteration, and reports the -1 timeout. -/
theorem crLoop_no_match (expected_cmd : Nat) (fuel : Nat) :
    ∀ (sleeps : Nat) (w : World),
      (∀ i, i < fuel → acceptsRecv expected_cmd (w.recvRes (w.recvs + i)) = false) →
      crLoop expected_cmd fuel sleeps w =
        (⟨-1, none, sleeps + fuel⟩, { w with recvs := w.recvs + fuel }) := by
  induction fuel with
  | zero => intro sleeps w _; rfl
  | succ n ih =>
    intro sleeps w h
    have h0 : acceptsRecv expected_cmd (w.recvRes w.recvs) = false := h 0 (by omega)
    have hrest : ∀ i, i < n →
        acceptsRecv expected_cmd (w.recvRes (w.recvs + 1 + i)) = false := by
      intro i hi
      have h' := h (i + 1) (by omega)
      have e : w.recvs + (i + 1) = w.recvs + 1 + i := by omega
      rw [e] at h'
      exact h'
    have e1 : sleeps + 1 + n = sleeps + (n + 1) := by omega
    have e2 : w.recvs + 1 + n = w.recvs + (n + 1) := by omega
    unfold crLoop
    cases hr : w.recvRes w.recvs with
    | frame f =>
      rw [hr] at h0
      simp only [acceptsRecv] at h0
      simp only [h0, Bool.false_eq_true, if_false]
      have := ih (sleeps + 1) { w with recvs := w.recvs + 1 } hrest
      rw [this, e1, e2]
    | noData =>
      have := ih (sleeps + 1) { w with recvs := w.recvs + 1 } hrest
      rw [this, e1, e2]
    | recvFail =>
      have := ih (sleeps + 1) { w with recvs := w.recvs + 1 } hrest
      rw [this, e1, e2]

/-- If the first accepted receive result is a matching frame at poll index
`k` (within fuel), the loop returns that frame's error byte and bytes 2..7
after exactly `k` sleeps, having consumed `k + 1` receives. -/
theorem crLoop_first_match (expected_cmd : Nat) (k : Nat) :
    ∀ (fuel sleeps : Nat) (w : World) (f : TCanFrame),
      k < fuel →
      (∀ i, i < k → acceptsRecv expected_cmd (w.recvRes (w.recvs + i)) = false) →
      w.recvRes (w.recvs + k) = RecvResult.frame f →
      crMatches expected_cmd f = true →
      crLoop expected_cmd fuel sleeps w =
        (⟨(f.data.getD 1 0 : Int),
          some [f.data.getD 2 0, f.data.getD 3 0, f.data.getD 4 0,
                f.data.getD 5 0, f.data.getD 6 0, f.data.getD 7 0],
          sleeps + k⟩,
         { w with recvs := w.recvs + k + 1 }) := by
  induction k with
  | zero =>
    intro fuel sleeps w f hk hb hm hf
    match fuel, hk with
    | fuel + 1, _ =>
      have hm' : w.recvRes w.recvs = RecvResult.frame f := hm
      unfold crLoop
      rw [hm']
      simp only [hf, if_true]
      rfl
  | succ n ih =>
    intro fuel sleeps w f hk hb hm hf
    match fuel, hk with
    | fuel + 1, hk =>
      have h0 : acceptsRecv expected_cmd (w.recvRes w.recvs) = false := hb 0 (by omega)
      have hrest : ∀ i, i < n →
          acceptsRecv expected_cmd (w.recvRes (w.recvs + 1 + i)) = false := by
        intro i hi
        have h' := hb (i + 1) (by omega)
        have e : w.recvs + (i + 1) = w.recvs + 1 + i := by omega
        rw [e] at h'
        exact h'
      have hm1 : w.recvRes (w.recvs + 1 + n) = RecvResult.frame f := by
        have e : w.recvs + (n + 1) = w.recvs + 1 + n := by omega
        rw [e] at hm
        exact hm
      have e1 : sleeps + 1 + n = sleeps + (n + 1) := by omega
      have e2 : w.recvs + 1 + n + 1 = w.recvs + (n + 1) + 1 := by omega
      unfold crLoop
      cases hr : w.recvRes w.recvs with
      | frame g =>
        rw [hr] at h0
        simp only [acceptsRecv] at h0
        simp only [h0, Bool.false_eq_true, if_false]
        have := ih fuel (sleeps + 1) { w with recvs := w.recvs + 1 } f (by omega) hrest hm1 hf
        rw [this, e1, e2]
      | noData =>
        have := ih fuel (sleeps + 1) { w with recvs := w.recvs + 1 } f (by omega) hrest hm1 hf
        rw [this, e1, e2]
      | recvFail =>
        have := ih fuel (sleeps + 1) { w with recvs := w.recvs + 1 } f (by omega) hrest hm1 hf
        rw [this, e1, e2]

/-- C4: within `j1939_check_response`, a polled frame is accepted exactly
when its PGN is `PGN_OSSM_RESPONSE`, its source is `OSSM_SOURCE_ADDRESS`,
and its first payload byte equals the expected command; earlier non-accepted
receive results are discarded while polling continues; the first match makes
the call return payload byte 1 as the protocol error code together with the
6-byte result block at payload bytes 2..7. -/
theorem C4_check_response_filter (w : World) (expected_cmd k : Nat) (f : TCanFrame)
    (hk : k < 200)
    (hbefore : ∀ i, i < k → acceptsRecv expected_cmd (w.recvRes (w.recvs + i)) = false)
    (hmatch : w.recvRes (w.recvs + k) = RecvResult.frame f)
    (hf : crMatches expected_cmd f = true) :
    (j1939_get_pgn f.id = PGN_OSSM_RESPONSE ∧
     j1939_get_source f.id = OSSM_SOURCE_ADDRESS ∧
     f.data.getD 0 0 = expected_cmd) ∧
    j1939_check_response expected_cmd w =
      (⟨(f.data.getD 1 0 : Int),
        some [f.data.getD 2 0, f.data.getD 3 0, f.data.getD 4 0,
              f.data.getD 5 0, f.data.getD 6 0, f.data.getD 7 0],
        k⟩,
       { w with recvs := w.recvs + k + 1 }) := by
  constructor
  · have hf' := hf
    simp only [crMatches, Bool.and_eq_true, beq_iff_eq] at hf'
    exact ⟨hf'.1.1, hf'.1.2, hf'.2⟩
  · unfold j1939_check_response
    have := crLoop_first_match expected_cmd k 200 0 w f hk hbefore hmatch hf
    rw [this, Nat.zero_add]

/-- Closed witness for `C4_check_response_filter`: the first receive yields
a frame with the wrong command byte (discarded), the second the matching
response. -/
theorem C4_check_response_filter_witness :
    (1 < 200 ∧
     (∀ i, i < 1 → acceptsRecv 4 (c4World.recvRes (c4World.recvs + i)) = false) ∧
     c4World.recvRes (c4World.recvs + 1) = RecvResult.frame c4RespFrame ∧
     crMatches 4 c4RespFrame = true) ∧
    ((j1939_get_pgn c4RespFrame.id = PGN_OSSM_RESPONSE ∧
      j1939_get_source c4RespFrame.id = OSSM_SOURCE_ADDRESS ∧
      c4RespFrame.data.getD 0 0 = 4) ∧
     j1939_check_response 4 c4World =
      (⟨(c4RespFrame.data.getD 1 0 : Int),
        some [c4RespFrame.data.getD 2 0, c4RespFrame.data.getD 3 0,
              c4RespFrame.data.getD 4 0, c4RespFrame.data.getD 5 0,
              c4RespFrame.data.getD 6 0, c4RespFrame.data.getD 7 0],
        1⟩,
       { c4World with recvs := c4World.recvs + 1 + 1 })) :=
  ⟨⟨by norm_num, by decide, by decide, by decide⟩,
   C4_check_response_filter c4World 4 1 c4RespFrame (by norm_num) (by decide)
     (by decide) (by decide)⟩

/-- C6: when no receive result within the 200-poll window is accepted,
`j1939_check_response` returns the -1 timeout sentinel with no result block
after exactly 200 completed 5 ms polls, i.e. 50 + 200 * 5 = 1050 ms of
sleeping - neither immediate nor unbounded - and -1 is distinct from every
protocol error code, protocol codes being byte values cast to a nonnegative
integer. -/
theorem C6_check_response_timeout (w : World) (expected_cmd : Nat)
    (h : ∀ i, i < 200 → acceptsRecv expected_cmd (w.recvRes (w.recvs + i)) = false) :
    (j1939_check_response expected_cmd w).1.code = -1 ∧
    (j1939_check_response expected_cmd w).1.resp = none ∧
    (j1939_check_response expected_cmd w).1.sleeps = 200 ∧
    check_response_wall_ms (j1939_check_response expected_cmd w).1 = 1050 ∧
    0 < check_response_wall_ms (j1939_check_response expected_cmd w).1 ∧
    (∀ b : Nat, (b : Int) ≠ (j1939_check_response expected_cmd w).1.code) := by
  unfold j1939_check_response
  rw [crLoop_no_match expected_cmd 200 0 w h]
  refine ⟨rfl, rfl, rfl, rfl, by norm_num [check_response_wall_ms], ?_⟩
  intro b
  show (b : Int) ≠ -1
  omega

/-- Closed witness for `C6_check_response_timeout` on a transport that never
has data. -/
theorem C6_check_response_timeout_witness :
    (∀ i, i < 200 → acceptsRecv 5 (c6World.recvRes (c6World.recvs + i)) = false) ∧
    ((j1939_check_response 5 c6World).1.code = -1 ∧
     (j1939_check_response 5 c6World).1.resp = none ∧
     (j1939_check_response 5 c6World).1.sleeps = 200 ∧
     check_response_wall_ms (j1939_check_response 5 c6World).1 = 1050 ∧
     0 < check_response_wall_ms (j1939_check_response 5 c6World).1 ∧
     (∀ b : Nat, (b : Int) ≠ (j1939_check_response 5 c6World).1.code)) :=
  ⟨fun i _ => rfl, C6_check_response_timeout c6World 5 (fun i _ => rfl)⟩

/-- One sub-query round appends exactly its own `CMD_QUERY [qtype, sub]`
frame to the send log, whatever the outcome. -/
theorem spnRound_sentLog (qtype limit sub : Nat) (w : World) (s : List Nat) :
    ((spnRound qtype limit sub w s).2.1).sentLog =
      w.sentLog ++ [j1939_send_command_frame CMD_QUERY [qtype, sub]] := by
  unfold spnRound
  have hsc2 : (j1939_send_command w CMD_QUERY [qtype, sub]).2.sentLog =
      w.sentLog ++ [j1939_send_command_frame CMD_QUERY [qtype, sub]] := rfl
  by_cases h : (j1939_send_command w CMD_QUERY [qtype, sub]).1 < 0
  · simp only [h, if_pos]
    exact hsc2
  · simp only [h, if_neg, if_false]
    have hcr2 : (j1939_check_response CMD_QUERY
        (j1939_send_command w CMD_QUERY [qtype, sub]).2).2.sentLog =
        (j1939_send_command w CMD_QUERY [qtype, sub]).2.sentLog :=
      (crLoop_world_inv CMD_QUERY 200 0 _).1
    split
    · exact hcr2.trans hsc2
    · exact hcr2.trans hsc2

/-- The second payload byte of a two-parameter command frame is the first
parameter (offset 1 = first copied parameter byte). -/
theorem send_command_frame_byte_one (cmd a b : Nat) :
    (j1939_send_command_frame cmd [a, b]).data.getD 1 0 = a := by
  simp [j1939_send_command_frame]

/-- Every frame a sub-query phase appends to the send log carries the
phase's query type as its first parameter byte (payload offset 1). -/
theorem spnPhase_sent_qtype (qtype limit : Nat) (w : World) (s : List Nat) :
    ∀ f ∈ ((spnPhase qtype limit w s).2.1).sentLog.drop w.sentLog.length,
      f.data.getD 1 0 = qtype := by
  intro f hf
  unfold spnPhase at hf
  rcases h0 : spnRound qtype limit 0 w s with ⟨o0, w1, s1⟩
  have hl0 : w1.sentLog = w.sentLog ++ [j1939_send_command_frame CMD_QUERY [qtype, 0]] := by
    have h := spnRound_sentLog qtype limit 0 w s
    rw [h0] at h
    exact h
  rw [h0] at hf
  cases o0 with
  | some e =>
    simp only at hf
    rw [hl0, List.drop_left] at hf
    rw [List.mem_singleton.mp hf]
    exact send_command_frame_byte_one CMD_QUERY qtype 0
  | none =>
    simp only at hf
    rcases h1 : spnRound qtype limit 1 w1 s1 with ⟨o1, w2, s2⟩
    have hl1 : w2.sentLog = w1.sentLog ++ [j1939_send_command_frame CMD_QUERY [qtype, 1]] := by
      have h := spnRound_sentLog qtype limit 1 w1 s1
      rw [h1] at h
      exact h
    rw [h1] at hf
    cases o1 with
    | some e =>
      simp only at hf
      rw [hl1, hl0, List.append_assoc, List.drop_left] at hf
      rcases List.mem_append.mp hf with hm | hm
      · rw [List.mem_singleton.mp hm]
        exact send_command_frame_byte_one CMD_QUERY qtype 0
      · rw [List.mem_singleton.mp hm]
        exact send_command_frame_byte_one CMD_QUERY qtype 1
    | none =>
      simp only at hf
      rcases h2 : spnRound qtype limit 2 w2 s2 with ⟨o2, w3, s3⟩
      have hl2 : w3.sentLog = w2.sentLog ++ [j1939_send_command_frame CMD_QUERY [qtype, 2]] := by
        have h := spnRound_sentLog qtype limit 2 w2 s2
        rw [h2] at h
        exact h
      rw [h2] at hf
      simp only at hf
      rw [hl2, hl1, hl0, List.append_assoc, List.append_assoc, List.drop_left] at hf
      rcases List.mem_append.mp hf with hm | hm
      · rw [List.mem_singleton.mp hm]
        exact send_command_frame_byte_one CMD_QUERY qtype 0
      · rcases List.mem_append.mp hm with hm' | hm'
        · rw [List.mem_singleton.mp hm']
          exact send_command_frame_byte_one CMD_QUERY qtype 1
        · rw [List.mem_singleton.mp hm']
          exact send_command_frame_byte_one CMD_QUERY qtype 2

/-- C5: if the temperature phase of `j1939_query_spn_assignments` fails
(some sub-query hits a transport error, a timeout, or a nonzero protocol
code), the whole query returns that failure immediately with the pressure
table still at its memset value (seven zeros), the temperature slots filled
so far are kept (no rollback), and every frame sent so far is a temperature
sub-query (first parameter byte 1) - no pressure sub-query is issued. -/
theorem C5_temp_failure_aborts (w w' : World) (e : Int) (t : List Nat)
    (hfail : spnPhase 1 8 w (List.replicate 8 0) = (some e, w', t)) :
    j1939_query_spn_assignments w = (e, ⟨t, List.replicate 7 0⟩, w') ∧
    (∀ f ∈ w'.sentLog.drop w.sentLog.length, f.data.getD 1 0 = 1) := by
  constructor
  · simp only [j1939_query_spn_assignments]
    rw [hfail]
  · have h := spnPhase_sent_qtype 1 8 w (List.replicate 8 0)
    rw [hfail] at h
    exact h

/-- Closed witness for `C5_temp_failure_aborts`: the first temperature
sub-query succeeds (filling slot 0 with SPN 175), the second fails at the
socket layer. -/
theorem C5_temp_failure_aborts_witness :
    spnPhase 1 8 c5World (List.replicate 8 0) =
      (some (-1), c5WorldAfter, [175, 0, 0, 0, 0, 0, 0, 0]) ∧
    (j1939_query_spn_assignments c5World =
      (-1, ⟨[175, 0, 0, 0, 0, 0, 0, 0], List.replicate 7 0⟩, c5WorldAfter) ∧
     (∀ f ∈ c5WorldAfter.sentLog.drop c5World.sentLog.length, f.data.getD 1 0 = 1)) :=
  ⟨rfl, C5_temp_failure_aborts c5World c5WorldAfter (-1) [175, 0, 0, 0, 0, 0, 0, 0] rfl⟩

/-- C10: whenever `j1939_query_config` returns a nonzero result (transport
failure, timeout, or nonzero protocol code), the caller's configuration
state is returned entirely unchanged; the count and flag fields are written
only on result 0. -/
theorem C10_query_config_failure_keeps_state (w : World) (state : TConfigState)
    (h : (j1939_query_config w state).1 ≠ 0) :
    (j1939_query_config w state).2.1 = state := by
  unfold j1939_query_config at h ⊢
  by_cases hs : (j1939_send_command w CMD_QUERY [0]).1 < 0
  · simp [hs]
  · simp only [hs, if_neg, if_false] at h ⊢
    by_cases hc : (j1939_check_response CMD_QUERY
        (j1939_send_command w CMD_QUERY [0]).2).1.code = 0
    · exact absurd hc h
    · simp [hc]

/-- Closed witness for `C10_query_config_failure_keeps_state`: the module
answers the query with protocol error 2 and the state is untouched. -/
theorem C10_query_config_failure_keeps_state_witness :
    (j1939_query_config c10World c10State).1 ≠ 0 ∧
    (j1939_query_config c10World c10State).2.1 = c10State :=
  ⟨by decide, C10_query_config_failure_keeps_state c10World c10State (by decide)⟩
